import Mathlib

/-!
# Employee dashboard: handlers, render output and the Name column

A shallow embedding of `src/EmployeeDashboard.js`.

* The React state of the component (`rowData`, `quickFilterText`, `pageSize`,
  `selectedRows`) is a record, and `setX v` is the record update that the next
  render observes.
* `gridRef.current` is an `Option`: `none` is the `undefined` of a fresh
  `useRef()`, `some ref` is the mounted grid component.
* The grid widget is an external library.  Only the three API methods the
  component calls are embedded, as state updates on a record that also logs
  every call it receives.  What the widget does with its inputs (text
  matching, pagination, CSV serialisation) is not part of this development.
* A handler returns the dashboard after the call together with the exception
  it raised, if any.
-/

namespace EmployeeDashboard

/-! ## Data model -/

/-- One record of `employees.json`, with the fields the column schema reads. -/
structure Employee where
  id : Int
  firstName : String
  lastName : String
  email : String
  department : String
  position : String
  salary : Int
  hireDate : String
  age : Int
  location : String
  performanceRating : Int
  projectsCompleted : Int
  isActive : Bool
  skills : List String
  manager : String
deriving DecidableEq, Repr

/-- The column filter model of the grid: column id paired with its filter condition. -/
abbrev FilterModel := List (String × String)

/-- Parameters object of `exportDataAsCsv`; the component never builds one. -/
structure CsvExportParams where
  fileName : Option String
  onlySelected : Bool
deriving DecidableEq, Repr

/-- The grid API calls made by the component, with their arguments. -/
inductive GridCall where
  | setFilterModel (model : Option FilterModel)
  | exportDataAsCsv (params : Option CsvExportParams)
  | getSelectedRows
deriving DecidableEq, Repr

/-- The part of the grid reachable through `gridRef.current.api`: its column
filter model (`none` is `null`), the rows it reports as selected and the log
of the calls it has received. -/
structure GridApi where
  filterModel : Option FilterModel
  selectedRows : List Employee
  calls : List GridCall
deriving DecidableEq, Repr

/-- The call `api.setFilterModel(model)`. -/
def GridApi.setFilterModel (api : GridApi) (model : Option FilterModel) : GridApi :=
  { api with filterModel := model, calls := api.calls ++ [GridCall.setFilterModel model] }

/-- The call `api.exportDataAsCsv(params)`; `none` is a call without argument. -/
def GridApi.exportDataAsCsv (api : GridApi) (params : Option CsvExportParams) : GridApi :=
  { api with calls := api.calls ++ [GridCall.exportDataAsCsv params] }

/-- The call `api.getSelectedRows()`: the rows returned and the grid afterwards. -/
def GridApi.getSelectedRows (api : GridApi) : List Employee × GridApi :=
  (api.selectedRows, { api with calls := api.calls ++ [GridCall.getSelectedRows] })

/-- The mounted grid component held by `gridRef.current`. -/
structure GridRef where
  api : GridApi
deriving DecidableEq, Repr

/-- The four `useState` cells of the component. -/
structure DashboardState where
  rowData : List Employee
  quickFilterText : String
  pageSize : Nat
  selectedRows : List Employee
deriving DecidableEq, Repr

/-- The component instance: its React state and `gridRef.current`. -/
structure Dashboard where
  state : DashboardState
  gridRef : Option GridRef
deriving DecidableEq, Repr

/-- Exceptions a handler can raise. -/
inductive JsError where
  | typeError (message : String)
deriving DecidableEq, Repr

/-- Result of running a handler: the dashboard afterwards and the exception raised, if any. -/
structure Outcome where
  next : Dashboard
  thrown : Option JsError
deriving DecidableEq, Repr

/-- The `target` of a change event of the search input. -/
structure EventTarget where
  value : String
deriving DecidableEq, Repr

/-- The change event passed to `onQuickFilterChange`. -/
structure ChangeEvent where
  target : EventTarget
deriving DecidableEq, Repr

/-! ## State -/

/-- The state of the first render: `useState(data)`, `useState("")`,
`useState(5)`, `useState([])`. -/
def initialState (data : List Employee) : DashboardState :=
  { rowData := data, quickFilterText := "", pageSize := 5, selectedRows := [] }

/-- The component before the grid is mounted: `useRef()` holds `undefined`. -/
def initialDashboard (data : List Employee) : Dashboard :=
  { state := initialState data, gridRef := none }

/-- The setter `setQuickFilterText`. -/
def setQuickFilterText (s : DashboardState) (text : String) : DashboardState :=
  { s with quickFilterText := text }

/-- The setter `setSelectedRows`. -/
def setSelectedRows (s : DashboardState) (rows : List Employee) : DashboardState :=
  { s with selectedRows := rows }

/-! ## Handlers -/

/-- The handler `onQuickFilterChange`: `(e) => setQuickFilterText(e.target.value)`. -/
def onQuickFilterChange (e : ChangeEvent) (d : Dashboard) : Outcome :=
  { next := { d with state := setQuickFilterText d.state e.target.value }, thrown := none }

/-- The handler `onClearFilters`: guarded by `if (gridRef.current)`, it calls
`setFilterModel(null)` and then `setQuickFilterText("")`. -/
def onClearFilters (d : Dashboard) : Outcome :=
  match d.gridRef with
  | some ref =>
    { next := { state := setQuickFilterText d.state "",
                gridRef := some { ref with api := ref.api.setFilterModel none } },
      thrown := none }
  | none => { next := d, thrown := none }

/-- The handler `onExportCSV`: `gridRef.current.api.exportDataAsCsv()` with no
guard, so reading `.api` of `undefined` raises a TypeError. -/
def onExportCSV (d : Dashboard) : Outcome :=
  match d.gridRef with
  | some ref =>
    { next := { d with gridRef := some { ref with api := ref.api.exportDataAsCsv none } },
      thrown := none }
  | none =>
    { next := d,
      thrown := some (JsError.typeError "Cannot read properties of undefined (reading api)") }

/-- The handler `onSelectionChanged`: guarded by `if (gridRef.current)`, it
stores the result of `getSelectedRows()` with `setSelectedRows`. -/
def onSelectionChanged (d : Dashboard) : Outcome :=
  match d.gridRef with
  | some ref =>
    let result := ref.api.getSelectedRows
    { next := { state := setSelectedRows d.state result.1,
                gridRef := some { ref with api := result.2 } },
      thrown := none }
  | none => { next := d, thrown := none }

/-! ## Render output -/

/-- The search `<input>` element. -/
structure SearchInput where
  type : String
  placeholder : String
  value : String
  className : String
  ariaLabel : String
deriving DecidableEq, Repr

/-- A `<button>` element: its class and its text. -/
structure Button where
  className : String
  text : String
deriving DecidableEq, Repr

/-- The `selected-rows-info` block: the number in `<strong>` and the Batch Action button. -/
structure SelectedRowsInfo where
  count : Nat
  batchAction : Button
deriving DecidableEq, Repr

/-- The data props passed to `<AgGridReact>` (the column schema and the
callbacks are passed as well and are not repeated here). -/
structure AgGridReactProps where
  rowData : List Employee
  pagination : Bool
  paginationPageSize : Nat
  quickFilterText : String
  rowSelection : String
  suppressRowClickSelection : Bool
  suppressAggFuncInHeader : Bool
  enableRangeSelection : Bool
  reactUi : String
deriving DecidableEq, Repr

/-- The element tree returned by the component. -/
structure View where
  title : String
  searchInput : SearchInput
  clearFilters : Button
  exportCSV : Button
  selectedRowsInfo : Option SelectedRowsInfo
  grid : AgGridReactProps
deriving DecidableEq, Repr

/-- The `return (...)` of the component, as a function of its state. The block
`selectedRows.length > 0 && (...)` renders nothing when the test is false. -/
def render (s : DashboardState) : View :=
  { title := "Employee Dashboard",
    searchInput :=
      { type := "search", placeholder := "Search employees...", value := s.quickFilterText,
        className := "search-input", ariaLabel := "Search employees" },
    clearFilters := { className := "dashboard-btn", text := "Clear Filters" },
    exportCSV := { className := "dashboard-btn", text := "Export CSV" },
    selectedRowsInfo :=
      if s.selectedRows.length > 0 then
        some { count := s.selectedRows.length,
               batchAction := { className := "dashboard-btn batch-action-btn",
                                text := "Batch Action" } }
      else none,
    grid :=
      { rowData := s.rowData, pagination := true, paginationPageSize := s.pageSize,
        quickFilterText := s.quickFilterText, rowSelection := "multiple",
        suppressRowClickSelection := true, suppressAggFuncInHeader := true,
        enableRangeSelection := true, reactUi := "true" } }

/-! ## The Name column -/

/-- Argument of a column `valueGetter`. -/
structure ValueGetterParams where
  data : Employee

/-- Argument of a column `tooltipValueGetter`. -/
structure TooltipParams where
  data : Employee
  value : String

/-- A column definition, with the properties the Name column sets. -/
structure ColDef where
  headerName : Option String
  valueGetter : Option (ValueGetterParams → String)
  filter : Bool
  sortable : Bool
  minWidth : Option Nat
  pinned : Option String
  tooltipValueGetter : Option (TooltipParams → String)

/-- The `valueGetter` of the Name column: the template literal of first and last name. -/
def nameValueGetter (params : ValueGetterParams) : String :=
  params.data.firstName ++ " " ++ params.data.lastName

/-- The `tooltipValueGetter` of the Name column: the same template literal. -/
def nameTooltipValueGetter (params : TooltipParams) : String :=
  params.data.firstName ++ " " ++ params.data.lastName

/-- The second entry of `columnDefs`. -/
def nameColumn : ColDef :=
  { headerName := some "Name",
    valueGetter := some nameValueGetter,
    filter := true,
    sortable := true,
    minWidth := some 150,
    pinned := some "left",
    tooltipValueGetter := some nameTooltipValueGetter }

/-! ## Runs of the component -/

/-- What can happen to a mounted component: one of the four handlers fires, or
the grid side changes (the grid mounts or unmounts, the user checks rows or
edits a column filter inside the grid). -/
inductive Action where
  | quickFilterChange (e : ChangeEvent)
  | clearFilters
  | exportCSV
  | selectionChanged
  | gridChange (current : Option GridRef)
deriving DecidableEq, Repr

/-- One action applied to the dashboard; an exception raised by a handler ends
that handler only. -/
def dispatch (d : Dashboard) : Action → Dashboard
  | Action.quickFilterChange e => (onQuickFilterChange e d).next
  | Action.clearFilters => (onClearFilters d).next
  | Action.exportCSV => (onExportCSV d).next
  | Action.selectionChanged => (onSelectionChanged d).next
  | Action.gridChange current => { d with gridRef := current }

/-- A sequence of actions applied from left to right. -/
def run (d : Dashboard) (actions : List Action) : Dashboard :=
  actions.foldl dispatch d

/-! ## Sample data -/

/-- A sample record. -/
def ada : Employee :=
  { id := 1, firstName := "Ada", lastName := "Lovelace", email := "ada@example.com",
    department := "Engineering", position := "Engineer", salary := 120000,
    hireDate := "2020-01-15", age := 36, location := "London", performanceRating := 5,
    projectsCompleted := 12, isActive := true, skills := ["Math", "Analysis"],
    manager := "Charles Babbage" }

/-- A second sample record. -/
def alan : Employee :=
  { id := 2, firstName := "Alan", lastName := "Turing", email := "alan@example.com",
    department := "Research", position := "Scientist", salary := 110000,
    hireDate := "2019-06-01", age := 41, location := "Manchester", performanceRating := 4,
    projectsCompleted := 9, isActive := false, skills := ["Logic"],
    manager := "Max Newman" }

/-- A mounted grid with a column filter set and both sample rows checked. -/
def sampleGrid : GridRef :=
  { api := { filterModel := some [("department", "equals Engineering")],
             selectedRows := [alan, ada], calls := [] } }

/-- A dashboard with a typed query, one stored selected row and the sample grid mounted. -/
def sampleMounted : Dashboard :=
  { state := { rowData := [ada, alan], quickFilterText := "ada", pageSize := 5,
               selectedRows := [ada] },
    gridRef := some sampleGrid }

/-- The same dashboard state with no grid mounted. -/
def sampleUnmounted : Dashboard :=
  { sampleMounted with gridRef := none }

/-! ## Helper lemmas -/

/-- No action changes the record list. -/
theorem dispatch_rowData (d : Dashboard) (a : Action) :
    (dispatch d a).state.rowData = d.state.rowData := by
  cases a <;> simp only [dispatch, onQuickFilterChange, onClearFilters, onExportCSV,
    onSelectionChanged, setQuickFilterText, setSelectedRows] <;> cases d.gridRef <;> rfl

/-- No action changes the page size. -/
theorem dispatch_pageSize (d : Dashboard) (a : Action) :
    (dispatch d a).state.pageSize = d.state.pageSize := by
  cases a <;> simp only [dispatch, onQuickFilterChange, onClearFilters, onExportCSV,
    onSelectionChanged, setQuickFilterText, setSelectedRows] <;> cases d.gridRef <;> rfl

/-- A run keeps the record list and the page size of the dashboard it starts from. -/
theorem run_keeps (actions : List Action) (d : Dashboard) :
    (run d actions).state.rowData = d.state.rowData ∧
      (run d actions).state.pageSize = d.state.pageSize := by
  induction actions generalizing d with
  | nil => exact ⟨rfl, rfl⟩
  | cons a rest ih =>
    have h := ih (dispatch d a)
    simp only [run, List.foldl_cons] at h ⊢
    exact ⟨h.1.trans (dispatch_rowData d a), h.2.trans (dispatch_pageSize d a)⟩

/-! ## Claims -/

/-- C1: when the grid is mounted, `onClearFilters` raises nothing, leaves the
grid with the column filter model `null`, having sent it `setFilterModel(null)`,
sets the query to the empty string, and the `quickFilterText` prop of the next
render is the empty string. -/
theorem onClearFilters_mounted (d : Dashboard) (ref : GridRef) (h : d.gridRef = some ref) :
    (onClearFilters d).thrown = none ∧
      (onClearFilters d).next.gridRef.map (fun r => r.api.filterModel) = some none ∧
      (onClearFilters d).next.gridRef.map (fun r => r.api.calls)
        = some (ref.api.calls ++ [GridCall.setFilterModel none]) ∧
      (onClearFilters d).next.state.quickFilterText = "" ∧
      (render (onClearFilters d).next.state).grid.quickFilterText = "" := by
  obtain ⟨st, g⟩ := d
  dsimp only at h
  subst h
  exact ⟨rfl, rfl, rfl, rfl, rfl⟩

/-- Instance of C1: the sample dashboard has a column filter and the query
`ada`; after `onClearFilters` both are cleared. -/
theorem onClearFilters_mounted_witness :
    sampleMounted.gridRef = some sampleGrid ∧
      sampleGrid.api.filterModel ≠ none ∧
      sampleMounted.state.quickFilterText = "ada" ∧
      ((onClearFilters sampleMounted).thrown = none ∧
        (onClearFilters sampleMounted).next.gridRef.map (fun r => r.api.filterModel)
          = some none ∧
        (onClearFilters sampleMounted).next.gridRef.map (fun r => r.api.calls)
          = some (sampleGrid.api.calls ++ [GridCall.setFilterModel none]) ∧
        (onClearFilters sampleMounted).next.state.quickFilterText = "" ∧
        (render (onClearFilters sampleMounted).next.state).grid.quickFilterText = "") :=
  ⟨rfl, by simp [sampleGrid], rfl, onClearFilters_mounted sampleMounted sampleGrid rfl⟩

/-- C2: when the grid is mounted and reports the list `L` as selected,
`onSelectionChanged` raises nothing and stores exactly `L` (same rows, same
order), so `selectedRows.length` is the length of `L`, and that is the count in
the rendered panel whenever `L` is not empty. -/
theorem onSelectionChanged_mounted (d : Dashboard) (ref : GridRef) (L : List Employee)
    (h : d.gridRef = some ref) (hL : ref.api.selectedRows = L) :
    (onSelectionChanged d).thrown = none ∧
      (onSelectionChanged d).next.state.selectedRows = L ∧
      (onSelectionChanged d).next.state.selectedRows.length = L.length ∧
      (render (onSelectionChanged d).next.state).selectedRowsInfo.map (fun p => p.count)
        = if L = [] then none else some L.length := by
  obtain ⟨st, g⟩ := d
  dsimp only at h
  subst h hL
  refine ⟨rfl, rfl, rfl, ?_⟩
  simp only [onSelectionChanged, GridApi.getSelectedRows, setSelectedRows, render]
  cases ref.api.selectedRows <;> simp

/-- Instance of C2: the grid reports two checked rows while one is stored;
after `onSelectionChanged` the stored selection is those two rows, in the
order the grid gave them, and the panel shows 2. -/
theorem onSelectionChanged_mounted_witness :
    sampleMounted.gridRef = some sampleGrid ∧
      sampleGrid.api.selectedRows = [alan, ada] ∧
      sampleMounted.state.selectedRows = [ada] ∧
      ((onSelectionChanged sampleMounted).thrown = none ∧
        (onSelectionChanged sampleMounted).next.state.selectedRows = [alan, ada] ∧
        (onSelectionChanged sampleMounted).next.state.selectedRows.length
          = [alan, ada].length ∧
        (render (onSelectionChanged sampleMounted).next.state).selectedRowsInfo.map
            (fun p => p.count)
          = if [alan, ada] = [] then none else some [alan, ada].length) :=
  ⟨rfl, rfl, rfl, onSelectionChanged_mounted sampleMounted sampleGrid [alan, ada] rfl rfl⟩

/-- C3: for every string `s`, `onQuickFilterChange` on an event whose value is
`s` raises nothing, sets the query to exactly `s` and changes nothing else; and
in every state both the `quickFilterText` prop passed to the grid and the value
of the search input equal the query. -/
theorem onQuickFilterChange_passthrough (s : String) (d : Dashboard) :
    (onQuickFilterChange { target := { value := s } } d).thrown = none ∧
      (onQuickFilterChange { target := { value := s } } d).next
        = { d with state := { d.state with quickFilterText := s } } ∧
      (onQuickFilterChange { target := { value := s } } d).next.state.quickFilterText = s ∧
      (render (onQuickFilterChange { target := { value := s } } d).next.state).grid.quickFilterText
        = s ∧
      (∀ st : DashboardState, (render st).grid.quickFilterText = st.quickFilterText ∧
        (render st).searchInput.value = st.quickFilterText) :=
  ⟨rfl, rfl, rfl, rfl, fun _ => ⟨rfl, rfl⟩⟩

/-- C6: after any sequence of handler calls and grid changes from the initial
dashboard, the record list is the dataset loaded at start and the page size is 5. -/
theorem run_rowData_pageSize (data : List Employee) (actions : List Action) :
    (run (initialDashboard data) actions).state.rowData = data ∧
      (run (initialDashboard data) actions).state.pageSize = 5 :=
  run_keeps actions (initialDashboard data)

/-- C7: the selection panel is rendered exactly when the stored selection is
not empty; the number it shows is the length of the stored selection; it never
shows 0; it carries the Batch Action button; and the first render shows no panel. -/
theorem selectedRowsInfo_spec (s : DashboardState) (data : List Employee) :
    ((render s).selectedRowsInfo.isSome = true ↔ s.selectedRows ≠ []) ∧
      ((render s).selectedRowsInfo.map (fun p => p.count)
        = if s.selectedRows = [] then none else some s.selectedRows.length) ∧
      (render s).selectedRowsInfo.map (fun p => p.count) ≠ some 0 ∧
      (render s).selectedRowsInfo.map (fun p => p.batchAction.text)
        = (if s.selectedRows = [] then none else some "Batch Action") ∧
      (render (initialState data)).selectedRowsInfo = none := by
  refine ⟨?_, ?_, ?_, ?_, rfl⟩ <;> simp only [render] <;> cases s.selectedRows <;> simp

/-- C8: when the grid is not mounted, `onClearFilters` and `onSelectionChanged`
raise nothing and return the dashboard unchanged, the query included. -/
theorem unmounted_guarded_handlers (d : Dashboard) (h : d.gridRef = none) :
    onClearFilters d = { next := d, thrown := none } ∧
      onSelectionChanged d = { next := d, thrown := none } := by
  obtain ⟨st, g⟩ := d
  dsimp only at h
  subst h
  exact ⟨rfl, rfl⟩

/-- Instance of C8: with no grid mounted the query `ada` and the stored
selection survive both handlers. -/
theorem unmounted_guarded_handlers_witness :
    sampleUnmounted.gridRef = none ∧
      sampleUnmounted.state.quickFilterText = "ada" ∧
      (onClearFilters sampleUnmounted = { next := sampleUnmounted, thrown := none } ∧
        onSelectionChanged sampleUnmounted = { next := sampleUnmounted, thrown := none }) :=
  ⟨rfl, rfl, unmounted_guarded_handlers sampleUnmounted rfl⟩

/-- C9: `onExportCSV` raises exactly when the grid is not mounted; in both cases
the React state is unchanged; and the grid afterwards is the grid before with
one `exportDataAsCsv` call without parameters appended to its call log. -/
theorem onExportCSV_spec (d : Dashboard) :
    ((onExportCSV d).thrown ≠ none ↔ d.gridRef = none) ∧
      (onExportCSV d).next.state = d.state ∧
      (onExportCSV d).next.gridRef
        = d.gridRef.map (fun ref =>
            { api := { filterModel := ref.api.filterModel,
                       selectedRows := ref.api.selectedRows,
                       calls := ref.api.calls ++ [GridCall.exportDataAsCsv none] } }) := by
  obtain ⟨st, g⟩ := d
  cases g
  · exact ⟨by simp [onExportCSV], rfl, rfl⟩
  · exact ⟨by simp [onExportCSV], rfl, rfl⟩

/-- C10: for every record the value of the Name column is the first name, one
space and the last name, and the tooltip of the Name column is the same string. -/
theorem nameColumn_value_tooltip (r : Employee) (v : String) :
    nameColumn.valueGetter.map (fun f => f { data := r })
        = some (r.firstName ++ " " ++ r.lastName) ∧
      nameColumn.tooltipValueGetter.map (fun f => f { data := r, value := v })
        = nameColumn.valueGetter.map (fun f => f { data := r }) :=
  ⟨rfl, rfl⟩

end EmployeeDashboard
